import Mathlib

/-!
Shallow embedding of `preprocessor.py` (Boston-RAZE): the record data model,
the cleaning/filtering pipeline, the status normalization, the histogram and
material-heatmap binning, and the district/subdistrict rollups, together with
theorems settling the specification claims about them.

Modelling conventions: a pandas cell that may hold NaN is an `Option`;
comparisons against NaN are `false` (as in pandas, where `NaN < x`,
`NaN == x` evaluate to `False`); `.mean()` skips NaN, modelled by
`List.filterMap` before averaging; floats are modelled by `ℚ`.
-/

namespace BostonRaze

/-- One row of the joined table, after the spatial join and deduplication
(steps 1–3 of `process_demolition_data`): `point` is the centroid geometry
(`x` = longitude, `y` = latitude), `district`/`subdistrict` the zoning
columns brought in by the left spatial join (none = unmatched). -/
structure Record where
  city : String
  year_built : Option Int
  material : Option String
  foundation : Option String
  gfa : ℚ
  demolition_type : Option String
  demolition_year : Option Int
  demolition_status : Option String
  point : Option (ℚ × ℚ)
  district : Option String
  subdistrict : Option String
deriving Repr, DecidableEq

/-- `gdf['LONGITUDE'] = gdf.geometry.x`. -/
def LONGITUDE (r : Record) : Option ℚ := r.point.map Prod.fst

/-- `gdf['LATITUDE'] = gdf.geometry.y`. -/
def LATITUDE (r : Record) : Option ℚ := r.point.map Prod.snd

/-- Python `str.upper()` (ASCII case mapping on the character list). -/
def pyUpper (s : String) : String := String.mk (s.data.map Char.toUpper)

/-- Python `str.strip()`: drop whitespace from both ends. -/
def pyStrip (s : String) : String :=
  String.mk ((((s.data.dropWhile Char.isWhitespace).reverse).dropWhile
    Char.isWhitespace).reverse)

/-- The Greater Boston allow-list (`boston_cities`). -/
def boston_cities : List String :=
  ["BOSTON", "CAMBRIDGE", "SOMERVILLE", "BROOKLINE", "QUINCY", "NEWTON",
   "WATERTOWN", "CHELSEA", "REVERE", "EVERETT"]

/-- `df = df[df['PROP_CITY'].astype(str).str.upper().isin(boston_cities)]`. -/
def cityFilter (rs : List Record) : List Record :=
  rs.filter (fun r => boston_cities.contains (pyUpper r.city))

/-- The AllBuildings view (`all_buildings_df`): the city-filtered table,
demolished or not. -/
def all_buildings (rs : List Record) : List Record := cityFilter rs

/-- `df['lifespan'] = df['demolition_year'] - df['year_built']`
(NaN when either operand is NaN). -/
def lifespanOf (r : Record) : Option Int :=
  match r.demolition_year, r.year_built with
  | some dy, some yb => some (dy - yb)
  | _, _ => none

/-- The row predicate of the filtering step `df = df[df['lifespan'] < 500]`;
a NaN lifespan compares as `False` and the row is dropped. -/
def lifespanLt500 (r : Record) : Bool :=
  match lifespanOf r with
  | some l => decide (l < 500)
  | none => false

/-- The Demolished view: `df` after the filtering step on line 107. -/
def demolished_view (rs : List Record) : List Record :=
  (all_buildings rs).filter lifespanLt500

/-- `df['material_group'] = df['material_type_desc'].fillna('Unknown').str.strip()`. -/
def material_group (r : Record) : String := pyStrip (r.material.getD "Unknown")

/-- `simple_status_check` (lines 129–133). -/
def simple_status_check (val : Option String) : String :=
  match val with
  | none => "Open"
  | some v =>
    if pyUpper (pyStrip v) = "CLOSED" ∨ pyUpper (pyStrip v) = "CLOSE"
    then "Close" else "Open"

/-- Lines 128–137: when the `DEMOLITION_STATUS` column is present the rows go
through `simple_status_check`; when the whole column is missing every row gets
`'Close'`. -/
def status_norm (hasStatusCol : Bool) (r : Record) : String :=
  if hasStatusCol then simple_status_check r.demolition_status else "Close"

/-! ### Material × lifespan heatmap binning (lines 306–325) -/

/-- Number of iterations of Python's `range(0, 200, bin_size)`. -/
def numBins (w : Nat) : Nat := 199 / w + 1

/-- The bucket lower edges `i` produced by `range(0, 200, bin_size)`. -/
def binStarts (w : Nat) : List Int :=
  (List.range (numBins w)).map (fun (j : Nat) => (j : Int) * w)

/-- `label = f"{i}-{i + bin_size} years" if i < 150 else f"{i}+ years"`. -/
def bucketLabel (w : Nat) (i : Int) : String :=
  if i < 150 then toString i ++ "-" ++ toString (i + (w : Int)) ++ " years"
  else toString i ++ "+ years"

/-- The row mask `(mat_df['lifespan'] >= i) & (mat_df['lifespan'] < i + bin_size)`;
a NaN lifespan fails both comparisons. -/
def inBucket (w : Nat) (i : Int) (r : Record) : Bool :=
  match lifespanOf r with
  | some l => decide (i ≤ l ∧ l < i + (w : Int))
  | none => false

/-- `subset = mat_df[mask]` for the bucket starting at `i`. -/
def rowsInBucket (w : Nat) (i : Int) (mdf : List Record) : List Record :=
  mdf.filter (inBucket w i)

/-- Python `int()` truncation toward zero of a rational. -/
def truncInt (q : ℚ) : Int := q.num.tdiv q.den

/-- The sparse per-material count map `bins_c`: one entry per bucket of
`range(0, 200, bin_size)` whose row count is positive. -/
def matBuckets (w : Nat) (mdf : List Record) : List (String × Nat) :=
  (binStarts w).filterMap (fun i =>
    if 0 < (rowsInBucket w i mdf).length
    then some (bucketLabel w i, (rowsInBucket w i mdf).length) else none)

/-- The sparse per-material floor-area map `bins_g` (same guard `count > 0`). -/
def matBucketsGfa (w : Nat) (mdf : List Record) : List (String × Int) :=
  (binStarts w).filterMap (fun i =>
    if 0 < (rowsInBucket w i mdf).length then
      some (bucketLabel w i, truncInt ((rowsInBucket w i mdf).map Record.gfa).sum)
    else none)

/-- Helper for first-occurrence deduplication: keep an element unless it was
already seen. -/
def uniqueFirstAux (seen : List String) : List String → List String
  | [] => []
  | a :: l =>
    if a ∈ seen then uniqueFirstAux seen l else a :: uniqueFirstAux (a :: seen) l

/-- First-occurrence deduplication, as `pandas.Series.unique` (line 310). -/
def uniqueFirst (l : List String) : List String := uniqueFirstAux [] l

/-- The demolition-type partition of the Demolished view (lines 301–304):
`'all'` keeps everything, otherwise `df[df['DEMOLITION_TYPE'] == demo_type]`. -/
def typeView (df : List Record) (dtype : String) : List Record :=
  if dtype = "all" then df else df.filter (fun r => r.demolition_type = some dtype)

/-- `mat_df = type_df[type_df['material_group'] == mat]`. -/
def matView (type_df : List Record) (mat : String) : List Record :=
  type_df.filter (fun r => material_group r = mat)

/-- `material_lifespan_demo[demo_type][bin_key]`: per material group of the
partition, the sparse count map, the material omitted when the map is empty
(`if bins_c:`). -/
def heatmapCounts (w : Nat) (type_df : List Record) :
    List (String × List (String × Nat)) :=
  (uniqueFirst (type_df.map material_group)).filterMap (fun mat =>
    if (matBuckets w (matView type_df mat)).isEmpty then none
    else some (mat, matBuckets w (matView type_df mat)))

/-- `material_lifespan_demo_gfa[demo_type][bin_key]`, gated by the same
`if bins_c:` guard as the count map. -/
def heatmapGfa (w : Nat) (type_df : List Record) :
    List (String × List (String × Int)) :=
  (uniqueFirst (type_df.map material_group)).filterMap (fun mat =>
    if (matBuckets w (matView type_df mat)).isEmpty then none
    else some (mat, matBucketsGfa w (matView type_df mat)))

/-! ### Summary statistics (lines 144–185) -/

/-- `df[df['DEMOLITION_TYPE'] == 'RAZE']`. -/
def raze_view (df : List Record) : List Record :=
  df.filter (fun r => r.demolition_type = some "RAZE")

/-- Row predicate `lifespan > 0` (`False` on NaN). -/
def lifePos (r : Record) : Bool :=
  match lifespanOf r with
  | some l => decide (0 < l)
  | none => false

/-- Row predicate `lifespan == 0` (`False` on NaN). -/
def lifeZero (r : Record) : Bool :=
  match lifespanOf r with
  | some l => decide (l = 0)
  | none => false

/-- Row predicate `lifespan < 0` (`False` on NaN). -/
def lifeNeg (r : Record) : Bool :=
  match lifespanOf r with
  | some l => decide (l < 0)
  | none => false

/-- The open/close pair produced by `get_counts` (lines 158–162). -/
structure StatusCounts where
  openCount : Nat
  closeCount : Nat
deriving Repr, DecidableEq

/-- `get_counts(d)`. -/
def get_counts (hasStatusCol : Bool) (d : List Record) : StatusCounts :=
  { openCount := (d.filter (fun r => status_norm hasStatusCol r = "Open")).length
    closeCount := (d.filter (fun r => status_norm hasStatusCol r = "Close")).length }

/-- `summary_stats['raze_status_by_lifespan']` (lines 164–167, 181–183). -/
structure RazeStatusByLifespan where
  positive : StatusCounts
  zero : StatusCounts
  negative : StatusCounts
  total : StatusCounts
deriving Repr, DecidableEq

/-- The cross-tabulation of RAZE records by lifespan sign and status. -/
def raze_status_by_lifespan (hasStatusCol : Bool) (df : List Record) :
    RazeStatusByLifespan :=
  let raze_df := raze_view df
  { positive := get_counts hasStatusCol (raze_df.filter lifePos)
    zero := get_counts hasStatusCol (raze_df.filter lifeZero)
    negative := get_counts hasStatusCol (raze_df.filter lifeNeg)
    total := get_counts hasStatusCol raze_df }

/-- `summary_stats['negative_raze_count'] = sb_negative['close']` (line 177). -/
def negative_raze_count (hasStatusCol : Bool) (df : List Record) : Nat :=
  (get_counts hasStatusCol ((raze_view df).filter lifeNeg)).closeCount

/-- `summary_stats['zero_raze_count'] = sb_zero['close']` (line 178). -/
def zero_raze_count (hasStatusCol : Bool) (df : List Record) : Nat :=
  (get_counts hasStatusCol ((raze_view df).filter lifeZero)).closeCount

/-! ### Map points (lines 189–202) and district points (lines 253–265) -/

/-- One element of `map_points`. -/
structure MapPoint where
  lat : ℚ
  lng : ℚ
  ptype : Option String
  lifespan : Int
  status : String
  year_built : Int
  material : String
  foundation : String
deriving Repr, DecidableEq

/-- One element of a district's `positive_raze_points` list. -/
structure DistrictPoint where
  lat : ℚ
  lng : ℚ
  lifespan : Int
  status : String
  year_built : Int
  material : String
  foundation : String
deriving Repr, DecidableEq

/-- `str(row.get('foundation_type', 'N/A'))`: the column always exists after
line 111, but a NaN cell stringifies to `'nan'`. -/
def foundationStr (r : Record) : String :=
  match r.foundation with
  | some f => f
  | none => "nan"

/-- The body of the `map_points` loop: a row is emitted only under
`pd.notna(row['LATITUDE'])`.  The `int(...)` coercions of `lifespan` and
`year_built` are total here (`.getD 0`) because in the Demolished view, where
the loop runs, both fields are always defined. -/
def emitMapPoint (hasStatusCol : Bool) (r : Record) : Option MapPoint :=
  match LATITUDE r with
  | none => none
  | some la =>
    some { lat := la
           lng := (LONGITUDE r).getD 0
           ptype := r.demolition_type
           lifespan := (lifespanOf r).getD 0
           status := status_norm hasStatusCol r
           year_built := r.year_built.getD 0
           material := material_group r
           foundation := foundationStr r }

/-- `result['map_points']` (lines 189–202). -/
def map_points (hasStatusCol : Bool) (df : List Record) : List MapPoint :=
  df.filterMap (emitMapPoint hasStatusCol)

/-- `df[df['Zoning_District'] == dist]` (NaN districts match nothing). -/
def districtView (df : List Record) (dist : String) : List Record :=
  df.filter (fun r => r.district = some dist)

/-- The body of the per-district points loop (same `pd.notna` guard). -/
def emitDistrictPoint (hasStatusCol : Bool) (r : Record) : Option DistrictPoint :=
  match LATITUDE r with
  | none => none
  | some la =>
    some { lat := la
           lng := (LONGITUDE r).getD 0
           lifespan := (lifespanOf r).getD 0
           status := status_norm hasStatusCol r
           year_built := r.year_built.getD 0
           material := material_group r
           foundation := foundationStr r }

/-- A district's `positive_raze_points`: the loop runs over `r_df`, the RAZE
records of the district (lines 247, 254–265). -/
def positive_raze_points (hasStatusCol : Bool) (df : List Record) (dist : String) :
    List DistrictPoint :=
  (raze_view (districtView df dist)).filterMap (emitDistrictPoint hasStatusCol)

/-! ### District heatmap (lines 219–242) and district counting (lines 209, 244–279) -/

/-- District heatmap bucket label `f"{i}-{i + bin_size}"` (no `+` variant). -/
def districtLabel (w : Nat) (i : Int) : String :=
  toString i ++ "-" ++ toString (i + (w : Int))

/-- The district heatmap's per-material sparse count map (`bins_c`,
lines 229–237). -/
def districtMatBuckets (w : Nat) (mdf : List Record) : List (String × Nat) :=
  (binStarts w).filterMap (fun i =>
    if 0 < (rowsInBucket w i mdf).length
    then some (districtLabel w i, (rowsInBucket w i mdf).length) else none)

/-- `len(d_df[d_df['material_group'] == mat])`. -/
def countMat (d_df : List Record) (m : String) : Nat :=
  (d_df.filter (fun r => material_group r = m)).length

/-- The descending-count comparison used by `value_counts()`. -/
def byCountDesc (d_df : List Record) (a b : String) : Prop :=
  countMat d_df b ≤ countMat d_df a

instance (d_df : List Record) : DecidableRel (byCountDesc d_df) :=
  fun _ _ => Nat.decLe _ _

/-- `d_df['material_group'].value_counts().head(15).index.tolist()`: the
distinct materials sorted by descending count (tie order a deterministic
policy choice, since `value_counts` leaves it unspecified), first 15. -/
def top_materials (d_df : List Record) : List String :=
  ((uniqueFirst (d_df.map material_group)).insertionSort (byCountDesc d_df)).take 15

/-- `make_district_heatmap(r_df, bin_size=20)['count']`. -/
def make_district_heatmap (d_df : List Record) : List (String × List (String × Nat)) :=
  (top_materials d_df).filterMap (fun mat =>
    if (districtMatBuckets 20 (matView d_df mat)).isEmpty then none
    else some (mat, districtMatBuckets 20 (matView d_df mat)))

/-- `all_districts = all_buildings_df['Zoning_District'].dropna().unique()`. -/
def all_district_names (rs : List Record) : List String :=
  uniqueFirst (rs.filterMap Record.district)

/-- A district's `count_total`: `len(d_all_df)` for
`d_all_df = all_buildings_df[all_buildings_df['Zoning_District'] == dist]`. -/
def count_total (rs : List Record) (dist : String) : Nat :=
  (rs.filter (fun r => r.district = some dist)).length

/-- The records the spatial join left without a district. -/
def unassigned_count (rs : List Record) : Nat :=
  (rs.filter (fun r => r.district = none)).length

/-! ### Subdistrict rollups (lines 284–290) -/

/-- Pandas `.mean()` of a list of integers, as a rational. -/
def mean (ls : List Int) : ℚ :=
  (ls.map (fun l => (l : ℚ))).sum / (ls.length : ℚ)

/-- `df[(df['Zoning_Subdistrict'] == sub) & (df['DEMOLITION_TYPE'] == 'RAZE')]`. -/
def sub_raze (df : List Record) (sub : String) : List Record :=
  df.filter (fun r =>
    decide (r.subdistrict = some sub) && decide (r.demolition_type = some "RAZE"))

/-- `result['zoning_subdistrict_stats']`: for each distinct non-null
subdistrict of `df`, the mean lifespan of its RAZE records (pandas `.mean()`
skips NaN cells), entry present only when at least one such record exists. -/
def zoning_subdistrict_stats (df : List Record) : List (String × ℚ) :=
  (uniqueFirst (df.filterMap Record.subdistrict)).filterMap (fun sub =>
    if 0 < (sub_raze df sub).length
    then some (sub, mean ((sub_raze df sub).filterMap lifespanOf)) else none)

/-- Rows whose lifespan is defined and lies in `[0, bound)`: the part of a
partition that the heatmap bucket grid can see at all. -/
def lifeInDomain (bound : Int) (r : Record) : Bool :=
  match lifespanOf r with
  | some l => decide (0 ≤ l ∧ l < bound)
  | none => false

/-! ### Concrete inputs used by counterexamples and witnesses -/

/-- A demolition record shaped like a typical row of the joined table:
a Boston RAZE demolition, built 2000, demolished 2010 (lifespan 10). -/
def recBase : Record :=
  { city := "BOSTON", year_built := some 2000, material := some "Brick",
    foundation := some "Concrete", gfa := 100, demolition_type := some "RAZE",
    demolition_year := some 2010, demolition_status := some "Closed",
    point := some (-71, 42), district := some "D", subdistrict := some "S" }

/-- A record with lifespan `-10` (demolished before it was built). -/
def recNeg : Record := { recBase with demolition_year := some 1990 }

/-- A record with lifespan `250` (valid for the Demolished view). -/
def recLong : Record := { recBase with demolition_year := some 2250 }

/-- A record with lifespan `160`. -/
def rec160 : Record := { recBase with demolition_year := some 2160 }

/-- A record with lifespan `300`. -/
def rec300 : Record := { recBase with demolition_year := some 2300 }

/-- A record with lifespan `-5` and defined coordinates. -/
def recNeg5 : Record := { recBase with demolition_year := some 1995 }

/-- A record with no geometry (NaN latitude and longitude). -/
def recNoGeom : Record := { recBase with point := none }

/-- A two-record RAZE partition of one material with lifespans 10 and 300. -/
def c4df : List Record := typeView (demolished_view [recBase, rec300]) "RAZE"

/-- A Demolished view holding two RAZE records of subdistrict `S` with
lifespans `-10` and `10`. -/
def c5df : List Record := demolished_view [recNeg, recBase]

/-- A district RAZE table with 16 distinct material groups: `T00` twice and
`T01` … `T15` once each. -/
def c8df : List Record :=
  ({ recBase with material := some "T00" }) ::
    (List.range 16).map (fun (j : Nat) =>
      { recBase with material := some ("T" ++ (if j < 10 then "0" else "") ++ toString j) })

/-! ### Helper lemmas -/

theorem mem_uniqueFirstAux (x : String) :
    ∀ (l seen : List String), x ∈ uniqueFirstAux seen l ↔ (x ∈ l ∧ x ∉ seen) := by
  intro l
  induction l with
  | nil => intro seen; simp [uniqueFirstAux]
  | cons a l ih =>
    intro seen
    by_cases ha : a ∈ seen
    · rw [uniqueFirstAux, if_pos ha, ih]
      constructor
      · rintro ⟨hx, hs⟩
        exact ⟨List.mem_cons_of_mem _ hx, hs⟩
      · rintro ⟨hx, hs⟩
        rcases List.mem_cons.mp hx with rfl | hx
        · exact absurd ha hs
        · exact ⟨hx, hs⟩
    · rw [uniqueFirstAux, if_neg ha]
      constructor
      · intro hx
        rcases List.mem_cons.mp hx with rfl | hx
        · exact ⟨List.mem_cons_self _ _, ha⟩
        · rcases (ih _).mp hx with ⟨hl, hs⟩
          refine ⟨List.mem_cons_of_mem _ hl, fun hxs => hs (List.mem_cons_of_mem _ hxs)⟩
      · rintro ⟨hx, hs⟩
        rcases List.mem_cons.mp hx with rfl | hx
        · exact List.mem_cons_self _ _
        · by_cases hxa : x = a
          · exact hxa ▸ List.mem_cons_self _ _
          · exact List.mem_cons_of_mem _ ((ih _).mpr ⟨hx, by
              intro hmem
              rcases List.mem_cons.mp hmem with h | h
              · exact hxa h
              · exact hs h⟩)

theorem mem_uniqueFirst {x : String} {l : List String} :
    x ∈ uniqueFirst l ↔ x ∈ l := by
  rw [uniqueFirst, mem_uniqueFirstAux]
  simp

theorem nodup_uniqueFirstAux : ∀ (l seen : List String), (uniqueFirstAux seen l).Nodup := by
  intro l
  induction l with
  | nil => intro seen; simp [uniqueFirstAux]
  | cons a l ih =>
    intro seen
    by_cases ha : a ∈ seen
    · rw [uniqueFirstAux, if_pos ha]; exact ih _
    · rw [uniqueFirstAux, if_neg ha]
      refine List.nodup_cons.mpr ⟨fun hmem => ?_, ih _⟩
      rcases (mem_uniqueFirstAux _ _ _).mp hmem with ⟨_, hs⟩
      exact hs (List.mem_cons_self _ _)

theorem nodup_uniqueFirst (l : List String) : (uniqueFirst l).Nodup :=
  nodup_uniqueFirstAux l []

theorem lookup_filterMap_of_none {α κ β : Type} [BEq κ] [LawfulBEq κ]
    (f : α → Option (κ × β)) (lab : α → κ)
    (hf : ∀ a p, f a = some p → p.1 = lab a) :
    ∀ (keys : List α) (k : κ), (∀ a ∈ keys, lab a ≠ k) →
      (keys.filterMap f).lookup k = none := by
  intro keys
  induction keys with
  | nil => intro k _; simp
  | cons a keys ih =>
    intro k hk
    rcases h : f a with _ | p
    · rw [List.filterMap_cons_none h]
      exact ih k (fun b hb => hk b (List.mem_cons_of_mem _ hb))
    · rw [List.filterMap_cons_some h, List.lookup]
      have hne : (k == p.1) = false := by
        rw [hf a p h]
        exact beq_false_of_ne (fun hkeq => hk a (List.mem_cons_self _ _) hkeq.symm)
      rw [hne]
      exact ih k (fun b hb => hk b (List.mem_cons_of_mem _ hb))

theorem lookup_filterMap_keyed {α κ β : Type} [BEq κ] [LawfulBEq κ]
    (f : α → Option (κ × β)) (lab : α → κ)
    (hf : ∀ a p, f a = some p → p.1 = lab a) :
    ∀ (keys : List α), (keys.map lab).Nodup → ∀ k ∈ keys,
      (keys.filterMap f).lookup (lab k) = (f k).map Prod.snd := by
  intro keys
  induction keys with
  | nil => intro _ k hk; exact absurd hk (List.not_mem_nil k)
  | cons a keys ih =>
    intro hnd k hk
    rw [List.map_cons, List.nodup_cons] at hnd
    obtain ⟨hna, hnd⟩ := hnd
    rcases List.mem_cons.mp hk with rfl | hk
    · rcases h : f k with _ | p
      · rw [List.filterMap_cons_none h]
        exact lookup_filterMap_of_none f lab hf keys (lab k)
          (fun b hb hbk => hna (hbk ▸ List.mem_map_of_mem lab hb))
      · obtain ⟨pk, pv⟩ := p
        have hpk : pk = lab k := hf k (pk, pv) h
        rw [List.filterMap_cons_some h]
        simp [List.lookup, hpk]
    · have hlabne : lab a ≠ lab k := by
        intro hcontra
        exact hna (hcontra ▸ List.mem_map_of_mem lab hk)
      rcases h : f a with _ | p
      · rw [List.filterMap_cons_none h]
        exact ih hnd k hk
      · obtain ⟨pk, pv⟩ := p
        have hpk : pk = lab a := hf a (pk, pv) h
        rw [List.filterMap_cons_some h]
        have hbeq : (lab k == pk) = false := by
          rw [hpk]
          exact beq_false_of_ne (fun hkeq => hlabne hkeq.symm)
        simp only [List.lookup, hbeq]
        exact ih hnd k hk

theorem length_filter_or_disjoint {α : Type} (p q : α → Bool)
    (hdis : ∀ a, ¬(p a = true ∧ q a = true)) :
    ∀ l : List α,
      (l.filter (fun a => p a || q a)).length = (l.filter p).length + (l.filter q).length := by
  intro l
  induction l with
  | nil => simp
  | cons a l ih =>
    rcases hp : p a with _ | _ <;> rcases hq : q a with _ | _
    · simpa [List.filter_cons, hp, hq] using ih
    · simp [List.filter_cons, hp, hq, ih]
      omega
    · simp [List.filter_cons, hp, hq, ih]
      omega
    · exact absurd ⟨hp, hq⟩ (hdis a)

theorem length_filter_partition {α : Type} (p q : α → Bool) (l : List α)
    (hcov : ∀ a ∈ l, p a = true ∨ q a = true)
    (hdis : ∀ a, ¬(p a = true ∧ q a = true)) :
    (l.filter p).length + (l.filter q).length = l.length := by
  induction l with
  | nil => simp
  | cons a l ih =>
    have hcov' : ∀ b ∈ l, p b = true ∨ q b = true :=
      fun b hb => hcov b (List.mem_cons_of_mem _ hb)
    have ih' := ih hcov'
    rcases hp : p a with _ | _ <;> rcases hq : q a with _ | _
    · rcases hcov a (List.mem_cons_self _ _) with h | h
      · rw [hp] at h; exact absurd h (by simp)
      · rw [hq] at h; exact absurd h (by simp)
    · simp [List.filter_cons, hp, hq]
      omega
    · simp [List.filter_cons, hp, hq]
      omega
    · exact absurd ⟨hp, hq⟩ (hdis a)

theorem status_norm_open_or_close (hasCol : Bool) (r : Record) :
    status_norm hasCol r = "Open" ∨ status_norm hasCol r = "Close" := by
  cases hasCol
  · right; rfl
  · show simple_status_check r.demolition_status = "Open" ∨
      simple_status_check r.demolition_status = "Close"
    rcases r.demolition_status with _ | v
    · left; rfl
    · rw [simple_status_check]
      split
      · right; rfl
      · left; rfl

theorem lifeInDomain_zero (r : Record) : lifeInDomain 0 r = false := by
  rw [lifeInDomain]
  rcases lifespanOf r with _ | l
  · rfl
  · simp only [decide_eq_false_iff_not]
    omega

theorem lifeInDomain_split (w n : Nat) (r : Record) :
    (lifeInDomain ((n : Int) * w) r || inBucket w ((n : Int) * w) r)
      = lifeInDomain (((n + 1 : Nat) : Int) * w) r := by
  have hcast : ((n + 1 : Nat) : Int) * w = (n : Int) * w + w := by push_cast; ring
  have hb : (0 : Int) ≤ (n : Int) * w := by positivity
  rw [lifeInDomain, lifeInDomain, inBucket, hcast]
  rcases lifespanOf r with _ | l
  · rfl
  · generalize (n : Int) * (w : Int) = b at hb ⊢
    rw [← Bool.decide_or, decide_eq_decide]
    omega

theorem lifeInDomain_disjoint (w : Nat) (b : Int) (r : Record) :
    ¬(lifeInDomain b r = true ∧ inBucket w b r = true) := by
  rintro ⟨h1, h2⟩
  rw [lifeInDomain] at h1
  rw [inBucket] at h2
  rcases h : lifespanOf r with _ | l <;> rw [h] at h1 h2
  · exact absurd h1 (by simp)
  · rw [decide_eq_true_eq] at h1 h2
    omega

theorem sum_bucket_lengths (w : Nat) (mdf : List Record) :
    ∀ n : Nat,
      (((List.range n).map
          (fun (j : Nat) => (rowsInBucket w ((j : Int) * w) mdf).length)).sum)
        = (mdf.filter (lifeInDomain ((n : Int) * w))).length := by
  intro n
  induction n with
  | zero =>
    simp only [List.range_zero, List.map_nil, List.sum_nil, Nat.cast_zero, zero_mul]
    rw [List.filter_congr (fun r _ => lifeInDomain_zero r)]
    simp
  | succ n ih =>
    rw [List.range_succ, List.map_append, List.sum_append, ih]
    have hsplit : mdf.filter (lifeInDomain (((n + 1 : Nat) : Int) * w))
        = mdf.filter (fun r =>
            lifeInDomain ((n : Int) * w) r || inBucket w ((n : Int) * w) r) :=
      List.filter_congr (fun r _ => (lifeInDomain_split w n r).symm)
    rw [hsplit,
      length_filter_or_disjoint (lifeInDomain ((n : Int) * w))
        (inBucket w ((n : Int) * w)) (lifeInDomain_disjoint w ((n : Int) * w)) mdf]
    simp [rowsInBucket]

theorem sum_filterMap_pos {α : Type} (lab : α → String) (cnt : α → Nat) :
    ∀ keys : List α,
      ((keys.filterMap
          (fun a => if 0 < cnt a then some (lab a, cnt a) else none)).map
        Prod.snd).sum = (keys.map cnt).sum := by
  intro keys
  induction keys with
  | nil => simp
  | cons a keys ih =>
    by_cases h : 0 < cnt a
    · rw [List.filterMap_cons_some (by rw [if_pos h])]
      simp only [List.map_cons, List.sum_cons, ih]
    · have h0 : cnt a = 0 := Nat.eq_zero_of_not_pos h
      rw [List.filterMap_cons_none (by rw [if_neg h])]
      simp only [List.map_cons, List.sum_cons, ih, h0, Nat.zero_add]

theorem filterMap_filter_isSome {α β : Type} (f : α → Option β) (p : α → Bool)
    (hp : ∀ a, p a = false → f a = none) :
    ∀ l : List α, (l.filter p).filterMap f = l.filterMap f := by
  intro l
  induction l with
  | nil => rfl
  | cons a l ih =>
    rcases hpa : p a with _ | _
    · rw [List.filter_cons_of_neg (by simp [hpa]), ih,
        List.filterMap_cons_none (hp a hpa)]
    · rw [List.filter_cons_of_pos (by simp [hpa])]
      rcases hf : f a with _ | b
      · rw [List.filterMap_cons_none hf, List.filterMap_cons_none hf, ih]
      · rw [List.filterMap_cons_some hf, List.filterMap_cons_some hf, ih]

/-! ### Claim C1 -/

/-- Claim C1 (counterexample): the filtering step keeps a record with
lifespan `-10` in the Demolished view, so the claimed invariant
`0 ≤ lifespan < 500` fails on its lower bound. -/
theorem C1_counterexample :
    demolished_view [recNeg] = [recNeg]
    ∧ lifespanOf recNeg = some (-10)
    ∧ ¬(0 ≤ (-10 : Int)) := by decide

/-- Claim C1 (amended): a record is retained in the Demolished view iff it
survives the city filter and its lifespan is defined and `< 500`; there is no
lower bound, so negative lifespans are retained. -/
theorem C1_demolished_view_characterization (rs : List Record) (r : Record) :
    r ∈ demolished_view rs ↔
      (r ∈ all_buildings rs ∧ ∃ l, lifespanOf r = some l ∧ l < 500) := by
  rw [demolished_view, List.mem_filter]
  refine and_congr Iff.rfl ?_
  rcases h : lifespanOf r with _ | l <;> simp [lifespanLt500, h]

/-- Claim C1 witness: the characterization applied to a concrete record. -/
theorem C1_witness : recBase ∈ demolished_view [recBase] :=
  (C1_demolished_view_characterization [recBase] recBase).mpr
    ⟨by decide, 10, by decide, by decide⟩

/-! ### Claim C3 -/

/-- Claim C3 (counterexample): with the `DEMOLITION_STATUS` column entirely
missing, every record gets `status_norm = 'Close'`, not the claimed default
`'Open'`. -/
theorem C3_counterexample :
    status_norm false recBase = "Close" ∧ "Close" ≠ "Open" := by decide

/-- Claim C3 (amended): `status_norm` is always `'Open'` or `'Close'`; when
the status column is present, it is `'Close'` exactly when the raw value is
present and its trimmed, upper-cased form is `"CLOSED"` or `"CLOSE"`, and an
absent value yields `'Open'`; but when the whole column is missing every
record gets `'Close'`. -/
theorem C3_status_norm_spec (hasCol : Bool) (r : Record) :
    (status_norm hasCol r = "Open" ∨ status_norm hasCol r = "Close")
    ∧ (hasCol = true →
        ((status_norm hasCol r = "Close") ↔
          ∃ v, r.demolition_status = some v ∧
            (pyUpper (pyStrip v) = "CLOSED" ∨ pyUpper (pyStrip v) = "CLOSE")))
    ∧ (hasCol = true → r.demolition_status = none → status_norm hasCol r = "Open")
    ∧ (hasCol = false → status_norm hasCol r = "Close") := by
  refine ⟨status_norm_open_or_close hasCol r, ?_, ?_, ?_⟩
  · rintro rfl
    show simple_status_check r.demolition_status = "Close" ↔ _
    rcases h : r.demolition_status with _ | v
    · simp [simple_status_check]
    · rw [simple_status_check]
      split
      · simp only [true_iff]
        exact ⟨v, rfl, by assumption⟩
      · rename_i hneg
        constructor
        · intro hcontra; exact absurd hcontra (by decide)
        · rintro ⟨v', hv', hcond⟩
          injection hv' with hveq
          subst hveq
          exact absurd hcond hneg
  · rintro rfl h
    show simple_status_check r.demolition_status = "Open"
    rw [h]
    rfl
  · rintro rfl
    rfl

/-- Claim C3 witness: a raw status `"Closed"` normalizes to `'Close'`. -/
theorem C3_witness : status_norm true recBase = "Close" :=
  ((C3_status_norm_spec true recBase).2.1 rfl).mpr ⟨"Closed", by decide, by decide⟩

/-! ### Claim C10 -/

/-- Claim C10: `negative_raze_count` (resp. `zero_raze_count`) counts exactly
the records that are RAZE, negative- (resp. zero-) lifespan **and**
`status_norm = 'Close'`; the cross-tabulation carries the close column
verbatim and its open column accounts for all remaining negative/zero RAZE
records. -/
theorem C10_negative_zero_raze_counts (hasCol : Bool) (df : List Record) :
    negative_raze_count hasCol df
        = (df.filter (fun r =>
            decide (status_norm hasCol r = "Close") && lifeNeg r
              && decide (r.demolition_type = some "RAZE"))).length
    ∧ zero_raze_count hasCol df
        = (df.filter (fun r =>
            decide (status_norm hasCol r = "Close") && lifeZero r
              && decide (r.demolition_type = some "RAZE"))).length
    ∧ (raze_status_by_lifespan hasCol df).negative.closeCount
        = negative_raze_count hasCol df
    ∧ (raze_status_by_lifespan hasCol df).zero.closeCount
        = zero_raze_count hasCol df
    ∧ (raze_status_by_lifespan hasCol df).negative.openCount
        + negative_raze_count hasCol df = ((raze_view df).filter lifeNeg).length
    ∧ (raze_status_by_lifespan hasCol df).zero.openCount
        + zero_raze_count hasCol df = ((raze_view df).filter lifeZero).length := by
  have hpartition : ∀ d : List Record,
      (d.filter (fun r => decide (status_norm hasCol r = "Open"))).length
        + (d.filter (fun r => decide (status_norm hasCol r = "Close"))).length
        = d.length := by
    intro d
    refine length_filter_partition _ _ d (fun a _ => ?_) (fun a => ?_)
    · rcases status_norm_open_or_close hasCol a with h | h
      · left; simpa using h
      · right; simpa using h
    · rintro ⟨h1, h2⟩
      rw [decide_eq_true_eq] at h1 h2
      rw [h1] at h2
      exact absurd h2 (by decide)
  refine ⟨?_, ?_, rfl, rfl, ?_, ?_⟩
  · show (((df.filter _).filter lifeNeg).filter _).length = _
    rw [List.filter_filter, List.filter_filter]
  · show (((df.filter _).filter lifeZero).filter _).length = _
    rw [List.filter_filter, List.filter_filter]
  · exact hpartition ((raze_view df).filter lifeNeg)
  · exact hpartition ((raze_view df).filter lifeZero)

/-! ### Claim C7 -/

theorem sum_counts_over_names (rs : List Record) :
    ∀ names : List String, names.Nodup →
      ((names.map (fun d => (rs.filter (fun r => r.district = some d)).length)).sum)
        = (rs.filter (fun r =>
            match r.district with
            | some d => decide (d ∈ names)
            | none => false)).length := by
  intro names
  induction names with
  | nil =>
    intro _
    simp only [List.map_nil, List.sum_nil]
    have h : rs.filter (fun r =>
        match r.district with
        | some d => decide (d ∈ ([] : List String))
        | none => false) = [] := by
      rw [List.filter_eq_nil_iff]
      intro r _
      rcases r.district with _ | d <;> simp
    rw [h]
    rfl
  | cons d rest ih =>
    intro hnd
    rw [List.nodup_cons] at hnd
    obtain ⟨hd, hnd⟩ := hnd
    rw [List.map_cons, List.sum_cons, ih hnd]
    have hdis : ∀ r : Record,
        ¬((fun r => decide (r.district = some d)) r = true
          ∧ (fun r =>
              match r.district with
              | some d' => decide (d' ∈ rest)
              | none => false) r = true) := by
      rintro r ⟨h1, h2⟩
      rw [decide_eq_true_eq] at h1
      simp only [h1, decide_eq_true_eq] at h2
      exact hd h2
    have hsplit := length_filter_or_disjoint
      (fun r => decide (r.district = some d))
      (fun r =>
        match r.district with
        | some d' => decide (d' ∈ rest)
        | none => false) hdis rs
    rw [← hsplit]
    apply congrArg
    apply List.filter_congr
    intro r _
    rcases h : r.district with _ | d'
    · simp
    · by_cases hdd : d' = d
      · subst hdd
        simp
      · simp [hdd]

/-- Claim C7: per-district `count_total` summed over all districts of the
AllBuildings view, plus the unassigned remainder, equals the AllBuildings
record count: after the first-match deduplication each record carries one
district value (or none) and is counted exactly once. -/
theorem C7_district_counts_partition (rs0 : List Record) :
    ((all_district_names (all_buildings rs0)).map
        (count_total (all_buildings rs0))).sum
      + unassigned_count (all_buildings rs0) = (all_buildings rs0).length := by
  set rs := all_buildings rs0 with hrs
  have hsum := sum_counts_over_names rs (all_district_names rs)
    (nodup_uniqueFirst _)
  rw [show (all_district_names rs).map (count_total rs)
      = (all_district_names rs).map
        (fun d => (rs.filter (fun r => r.district = some d)).length) from rfl,
    hsum, unassigned_count]
  refine length_filter_partition _ _ rs (fun r hr => ?_) (fun r => ?_)
  · rcases h : r.district with _ | d
    · right; simp [h]
    · left
      simp only [h, decide_eq_true_eq, all_district_names, mem_uniqueFirst]
      exact List.mem_filterMap.mpr ⟨r, hr, h⟩
  · rintro ⟨h1, h2⟩
    rw [decide_eq_true_eq] at h2
    rw [h2] at h1
    exact absurd h1 (by simp)

/-! ### Claim C5 -/

/-- Claim C5 (counterexample): a subdistrict with two RAZE records of
lifespans `-10` and `10` gets `avg_raze_lifespan = 0`, while the mean of its
positive RAZE lifespans is `10`: the mean does not exclude non-positive
lifespans. -/
theorem C5_counterexample :
    (zoning_subdistrict_stats c5df).lookup "S" = some 0
    ∧ mean (((sub_raze c5df "S").filterMap lifespanOf).filter
        (fun l => decide (0 < l))) = 10
    ∧ (0 : ℚ) ≠ 10 := by
  have hdf : c5df = [recNeg, recBase] := by decide
  refine ⟨?_, ?_, by norm_num⟩
  · rw [hdf]
    norm_num [zoning_subdistrict_stats, uniqueFirst, uniqueFirstAux, sub_raze,
      mean, lifespanOf, recNeg, recBase, List.filterMap, List.filter, List.lookup]
  · rw [hdf]
    norm_num [sub_raze, mean, lifespanOf, recNeg, recBase, List.filterMap,
      List.filter]

/-- Claim C5 (amended): `zoning_subdistrict_stats` has an entry for a
subdistrict exactly when the Demolished view has at least one RAZE record
there, and the entry's value is the mean over **all** lifespans of those RAZE
records — zero and negative lifespans included. -/
theorem C5_subdistrict_stats_spec (df : List Record) (sub : String) (q : ℚ) :
    (zoning_subdistrict_stats df).lookup sub = some q ↔
      (0 < (sub_raze df sub).length
        ∧ q = mean ((sub_raze df sub).filterMap lifespanOf)) := by
  have hf : ∀ (s : String) (p : String × ℚ),
      (if 0 < (sub_raze df s).length
       then some (s, mean ((sub_raze df s).filterMap lifespanOf)) else none)
        = some p → p.1 = s := by
    intro s p h
    split at h
    · injection h with h
      rw [← h]
    · exact absurd h (by simp)
  by_cases hmem : sub ∈ uniqueFirst (df.filterMap Record.subdistrict)
  · have hlook := lookup_filterMap_keyed _ id hf
      (uniqueFirst (df.filterMap Record.subdistrict))
      (by rw [List.map_id]; exact nodup_uniqueFirst _) sub hmem
    simp only [id_eq] at hlook
    rw [zoning_subdistrict_stats, hlook]
    by_cases hpos : 0 < (sub_raze df sub).length
    · rw [if_pos hpos]
      constructor
      · intro h
        injection h with h
        exact ⟨hpos, h.symm⟩
      · rintro ⟨_, rfl⟩
        rfl
    · rw [if_neg hpos]
      constructor
      · intro h; exact absurd h (by simp)
      · rintro ⟨h, _⟩; exact absurd h hpos
  · have hlook := lookup_filterMap_of_none _ id hf
      (uniqueFirst (df.filterMap Record.subdistrict)) sub
      (fun a ha hak => hmem (hak ▸ ha))
    rw [zoning_subdistrict_stats, hlook]
    constructor
    · intro h; exact absurd h (by simp)
    · rintro ⟨hpos, _⟩
      rcases List.exists_mem_of_length_pos hpos with ⟨r, hr⟩
      rcases List.mem_filter.mp hr with ⟨hrdf, hcond⟩
      rw [Bool.and_eq_true, decide_eq_true_eq, decide_eq_true_eq] at hcond
      exact absurd (mem_uniqueFirst.mpr
        (List.mem_filterMap.mpr ⟨r, hrdf, hcond.1⟩)) hmem

/-- Claim C5 witness: the characterization applied to a concrete table. -/
theorem C5_witness :
    (zoning_subdistrict_stats [recBase]).lookup "S"
      = some (mean ((sub_raze [recBase] "S").filterMap lifespanOf)) :=
  (C5_subdistrict_stats_spec [recBase] "S" _).mpr ⟨by decide, rfl⟩

/-! ### Claims C9 and C6 -/

theorem filter_swap {α : Type} (p q : α → Bool) (l : List α) :
    (l.filter q).filter p = (l.filter p).filter q := by
  rw [List.filter_filter, List.filter_filter]
  apply List.filter_congr
  intro a _
  exact Bool.and_comm _ _

/-- Claim C9: a record with undefined latitude is silently omitted from
`map_points` and from every district's `positive_raze_points` (filtering such
records away changes nothing), and every emitted point carries the defined
latitude and longitude of a source record. -/
theorem C9_point_coordinates (hasCol : Bool) (df : List Record) (dist : String) :
    map_points hasCol df
        = map_points hasCol (df.filter (fun r => (LATITUDE r).isSome))
    ∧ (∀ p ∈ map_points hasCol df, ∃ r ∈ df,
        LATITUDE r = some p.lat ∧ LONGITUDE r = some p.lng)
    ∧ positive_raze_points hasCol df dist
        = positive_raze_points hasCol (df.filter (fun r => (LATITUDE r).isSome)) dist
    ∧ (∀ p ∈ positive_raze_points hasCol df dist, ∃ r ∈ df,
        LATITUDE r = some p.lat ∧ LONGITUDE r = some p.lng) := by
  have hemitM : ∀ r : Record, (fun r => (LATITUDE r).isSome) r = false →
      emitMapPoint hasCol r = none := by
    intro r h
    rcases hl : LATITUDE r with _ | la
    · simp [emitMapPoint, hl]
    · simp [hl] at h
  have hemitD : ∀ r : Record, (fun r => (LATITUDE r).isSome) r = false →
      emitDistrictPoint hasCol r = none := by
    intro r h
    rcases hl : LATITUDE r with _ | la
    · simp [emitDistrictPoint, hl]
    · simp [hl] at h
  refine ⟨?_, ?_, ?_, ?_⟩
  · exact (filterMap_filter_isSome (emitMapPoint hasCol) _ hemitM df).symm
  · intro p hp
    obtain ⟨r, hr, hemit⟩ := List.mem_filterMap.mp hp
    rcases hpt : r.point with _ | xy
    · have hla : LATITUDE r = none := by rw [LATITUDE, hpt]; rfl
      simp [emitMapPoint, hla] at hemit
    · obtain ⟨x, y⟩ := xy
      have hla : LATITUDE r = some y := by rw [LATITUDE, hpt]; rfl
      have hlo : LONGITUDE r = some x := by rw [LONGITUDE, hpt]; rfl
      simp only [emitMapPoint, hla] at hemit
      injection hemit with hemit
      refine ⟨r, hr, ?_, ?_⟩
      · rw [hla, ← hemit]
      · rw [hlo, ← hemit]
        show some x = some ((LONGITUDE r).getD 0)
        rw [hlo]
        rfl
  · have h1 : districtView (df.filter (fun r => (LATITUDE r).isSome)) dist
        = (districtView df dist).filter (fun r => (LATITUDE r).isSome) :=
      filter_swap _ _ df
    have h2 : raze_view ((districtView df dist).filter (fun r => (LATITUDE r).isSome))
        = (raze_view (districtView df dist)).filter (fun r => (LATITUDE r).isSome) :=
      filter_swap _ _ (districtView df dist)
    show (raze_view (districtView df dist)).filterMap (emitDistrictPoint hasCol)
      = (raze_view (districtView (df.filter (fun r => (LATITUDE r).isSome)) dist)).filterMap
          (emitDistrictPoint hasCol)
    rw [h1, h2, filterMap_filter_isSome (emitDistrictPoint hasCol) _ hemitD]
  · intro p hp
    obtain ⟨r, hr, hemit⟩ := List.mem_filterMap.mp hp
    have hrdf : r ∈ df := by
      rcases List.mem_filter.mp hr with ⟨hr2, _⟩
      exact (List.mem_filter.mp hr2).1
    rcases hpt : r.point with _ | xy
    · have hla : LATITUDE r = none := by rw [LATITUDE, hpt]; rfl
      simp [emitDistrictPoint, hla] at hemit
    · obtain ⟨x, y⟩ := xy
      have hla : LATITUDE r = some y := by rw [LATITUDE, hpt]; rfl
      have hlo : LONGITUDE r = some x := by rw [LONGITUDE, hpt]; rfl
      simp only [emitDistrictPoint, hla] at hemit
      injection hemit with hemit
      refine ⟨r, hrdf, ?_, ?_⟩
      · rw [hla, ← hemit]
      · rw [hlo, ← hemit]
        show some x = some ((LONGITUDE r).getD 0)
        rw [hlo]
        rfl

/-- Claim C9 witness: the coordinate property applied to a concrete point of
a concrete table. -/
theorem C9_witness :
    ∃ r ∈ [recBase], LATITUDE r = some 42 ∧ LONGITUDE r = some (-71) :=
  (C9_point_coordinates true [recBase] "D").2.1
    ⟨42, -71, some "RAZE", 10, "Close", 2000, "Brick", "Concrete"⟩ (by decide)

/-- Claim C6: `positive_raze_points` is computed from `r_df` (all RAZE records
of the district) rather than from the `r_pos` subset computed right above it,
so a RAZE record with lifespan `-5` and defined coordinates is emitted into
the list despite its non-positive lifespan. -/
theorem C6_positive_raze_points_eval :
    positive_raze_points true (demolished_view [recNeg5]) "D"
      = [{ lat := 42, lng := -71, lifespan := -5, status := "Close",
           year_built := 2000, material := "Brick", foundation := "Concrete" }]
    ∧ ¬(0 < (-5 : Int)) := by decide

/-! ### Claim C2 -/

theorem binStarts_labels_nodup :
    ∀ w ∈ [10, 20, 25, 30, 50], ((binStarts w).map (bucketLabel w)).Nodup := by
  intro w hw
  fin_cases hw <;> decide

/-- Claim C2 (counterexample): a record with lifespan `250` is retained by the
Demolished view, yet for bin width 50 it is counted in no bucket at all — in
particular not in the `"150+ years"` bucket, which the claim says collects
every lifespan `≥ 150`; and for bin width 10 a lifespan of `160` lands in a
separate `"160+ years"` bucket instead of collapsing into `"150+ years"`. -/
theorem C2_counterexample :
    recLong ∈ demolished_view [recLong]
    ∧ lifespanOf recLong = some 250
    ∧ matBuckets 50 [recLong] = []
    ∧ (matBuckets 50 [recLong]).lookup "150+ years" = none
    ∧ (matBuckets 10 [rec160]).lookup "150+ years" = none
    ∧ (matBuckets 10 [rec160]).lookup "160+ years" = some 1 := by decide

/-- Claim C2 (amended): for every bin width in {10, 20, 25, 30, 50}, buckets
run from 0 up to 200 in steps of the width and **every** bucket — including
the ones labelled `"i+ years"` for `i ≥ 150` — is the half-open range
`[i, i+width)`: the entry stored under `bucketLabel w i` is exactly the count
of rows with lifespan in `[i, i+width)` (absent when that count is zero), and
a row whose lifespan is undefined or outside `[0, numBins·width)` is counted
in no bucket. -/
theorem C2_bucket_semantics (w : Nat) (hw : w ∈ [10, 20, 25, 30, 50])
    (mdf : List Record) (i : Int) (hi : i ∈ binStarts w) :
    (matBuckets w mdf).lookup (bucketLabel w i)
      = (if 0 < (rowsInBucket w i mdf).length
         then some (rowsInBucket w i mdf).length else none)
    ∧ (∀ r ∈ mdf, lifeInDomain ((numBins w : Int) * w) r = false →
        inBucket w i r = false) := by
  constructor
  · have hf : ∀ (a : Int) (p : String × Nat),
        (if 0 < (rowsInBucket w a mdf).length
         then some (bucketLabel w a, (rowsInBucket w a mdf).length) else none)
          = some p → p.1 = bucketLabel w a := by
      intro a p h
      split at h
      · injection h with h
        rw [← h]
      · exact absurd h (by simp)
    have hlook := lookup_filterMap_keyed _ (bucketLabel w) hf (binStarts w)
      (binStarts_labels_nodup w hw) i hi
    rw [matBuckets, hlook]
    split <;> rfl
  · intro r hr hdom
    rw [binStarts] at hi
    obtain ⟨k, hkmem, hkw⟩ := List.mem_map.mp hi
    have hk := List.mem_range.mp hkmem
    subst hkw
    rcases hl : lifespanOf r with _ | l
    · rw [inBucket, hl]
    · rw [lifeInDomain, hl, decide_eq_false_iff_not] at hdom
      rw [inBucket, hl, decide_eq_false_iff_not]
      have hkk : (k + 1) * w ≤ numBins w * w :=
        Nat.mul_le_mul_right w (Nat.succ_le_of_lt hk)
      have hub : ((k : Int)) * w + w ≤ (numBins w : Int) * w := by
        zify at hkk
        linarith
      have hlb : (0 : Int) ≤ (k : Int) * w := by positivity
      intro hcontra
      exact hdom ⟨by linarith [hcontra.1], by linarith [hcontra.2]⟩

/-- Claim C2 witness: the bucket semantics applied to a concrete width, bucket
and table. -/
theorem C2_witness :
    (matBuckets 10 [recBase]).lookup (bucketLabel 10 10) = some 1 := by
  have h := (C2_bucket_semantics 10 (by decide) [recBase] 10 (by decide)).1
  rw [h]
  decide

/-! ### Claim C4 -/

theorem map_fst_filterMap_if {α β γ : Type} (lab : α → String)
    (cnt : α → Nat) (v1 : α → β) (v2 : α → γ) :
    ∀ keys : List α,
      ((keys.filterMap
          (fun a => if 0 < cnt a then some (lab a, v1 a) else none)).map Prod.fst)
        = ((keys.filterMap
            (fun a => if 0 < cnt a then some (lab a, v2 a) else none)).map Prod.fst) := by
  intro keys
  induction keys with
  | nil => rfl
  | cons a keys ih =>
    by_cases h : 0 < cnt a
    · rw [List.filterMap_cons_some (by rw [if_pos h]),
        List.filterMap_cons_some (by rw [if_pos h])]
      simp only [List.map_cons, ih]
    · rw [List.filterMap_cons_none (by rw [if_neg h]),
        List.filterMap_cons_none (by rw [if_neg h])]
      exact ih

/-- Claim C4 (counterexample): a partition with two records of one material,
lifespans 10 and 300, yields a heatmap entry whose bucket counts sum to 1
while the material has 2 records in the partition's filtered view: the record
with lifespan 300 (which the Demolished view retains) is silently dropped by
the 0–200 bucket grid. -/
theorem C4_counterexample :
    (heatmapCounts 10 c4df).lookup "Brick" = some [("10-20 years", 1)]
    ∧ (matView c4df "Brick").length = 2
    ∧ (([("10-20 years", 1)] : List (String × Nat)).map Prod.snd).sum ≠ 2 := by
  decide

/-- Claim C4 (amended): every bucket entry of a heatmap material has a
positive count; the counts of a material sum to the number of its records
with lifespan in `[0, numBins·width)` — not to its full record count in the
partition, since defined lifespans that are negative or at/above the grid
ceiling fall in no bucket; and the floor-area map carries exactly the same
material keys and bucket labels. -/
theorem C4_heatmap_sums (w : Nat) (type_df : List Record) (mat : String)
    (buckets : List (String × Nat))
    (hmem : (mat, buckets) ∈ heatmapCounts w type_df) :
    (∀ p ∈ buckets, 0 < p.2)
    ∧ (buckets.map Prod.snd).sum
        = ((matView type_df mat).filter
            (lifeInDomain ((numBins w : Int) * w))).length
    ∧ ∃ gbuckets, (heatmapGfa w type_df).lookup mat = some gbuckets
        ∧ gbuckets.map Prod.fst = buckets.map Prod.fst := by
  rw [heatmapCounts] at hmem
  obtain ⟨a, ha, hfa⟩ := List.mem_filterMap.mp hmem
  by_cases hempty : (matBuckets w (matView type_df a)).isEmpty
  · rw [if_pos hempty] at hfa
    exact absurd hfa (by simp)
  · rw [if_neg hempty] at hfa
    injection hfa with hfa
    injection hfa with h1 h2
    subst h1
    subst h2
    refine ⟨?_, ?_, ?_⟩
    · intro p hp
      rw [matBuckets] at hp
      obtain ⟨i, _, hif⟩ := List.mem_filterMap.mp hp
      by_cases h : 0 < (rowsInBucket w i (matView type_df a)).length
      · rw [if_pos h] at hif
        injection hif with hif
        rw [← hif]
        exact h
      · rw [if_neg h] at hif
        exact absurd hif (by simp)
    · rw [matBuckets, binStarts, List.filterMap_map]
      have hsum := sum_filterMap_pos
        (fun (j : Nat) => bucketLabel w ((j : Int) * w))
        (fun (j : Nat) => (rowsInBucket w ((j : Int) * w) (matView type_df a)).length)
        (List.range (numBins w))
      simp only [Function.comp_def] at hsum ⊢
      rw [hsum, sum_bucket_lengths w (matView type_df a) (numBins w)]
    · have hfg : ∀ (s : String) (p : String × List (String × Int)),
          (if (matBuckets w (matView type_df s)).isEmpty then none
           else some (s, matBucketsGfa w (matView type_df s))) = some p →
            p.1 = s := by
        intro s p h
        split at h
        · exact absurd h (by simp)
        · injection h with h
          rw [← h]
      have hlook := lookup_filterMap_keyed _ id hfg
        (uniqueFirst (type_df.map material_group))
        (by rw [List.map_id]; exact nodup_uniqueFirst _) a ha
      simp only [id_eq] at hlook
      refine ⟨matBucketsGfa w (matView type_df a), ?_, ?_⟩
      · rw [heatmapGfa, hlook, if_neg hempty]
        rfl
      · exact map_fst_filterMap_if (bucketLabel w)
          (fun i => (rowsInBucket w i (matView type_df a)).length)
          (fun i => truncInt ((rowsInBucket w i (matView type_df a)).map Record.gfa).sum)
          (fun i => (rowsInBucket w i (matView type_df a)).length)
          (binStarts w)

/-- Claim C4 witness: the sum property applied to a concrete partition. -/
theorem C4_witness :
    (([("10-20 years", 1)] : List (String × Nat)).map Prod.snd).sum
      = ((matView [recBase] "Brick").filter
          (lifeInDomain ((numBins 10 : Int) * 10))).length :=
  (C4_heatmap_sums 10 [recBase] "Brick" [("10-20 years", 1)] (by decide)).2.1

/-! ### Claim C8 -/

/-- Claim C8: a district's heatmap keys come from the 15 materials of largest
record count: the retained list has at most 15 entries, any material outside
it is entirely absent from the heatmap, and no excluded material has a larger
record count than an included one. -/
theorem C8_district_heatmap_top15 (d_df : List Record) (m m' : String)
    (hm : m ∈ top_materials d_df) (hm' : m' ∈ d_df.map material_group)
    (hout : m' ∉ top_materials d_df) :
    countMat d_df m' ≤ countMat d_df m
    ∧ (make_district_heatmap d_df).lookup m' = none
    ∧ (top_materials d_df).length ≤ 15 := by
  have hsortmem : m' ∈ (uniqueFirst (d_df.map material_group)).insertionSort
      (byCountDesc d_df) := by
    rw [List.mem_insertionSort, mem_uniqueFirst]
    exact hm'
  refine ⟨?_, ?_, ?_⟩
  · letI : IsTotal String (byCountDesc d_df) :=
      ⟨fun a b => Nat.le_total (countMat d_df b) (countMat d_df a)⟩
    letI : IsTrans String (byCountDesc d_df) :=
      ⟨fun _ _ _ hab hbc => le_trans hbc hab⟩
    have hsorted := List.sorted_insertionSort (byCountDesc d_df)
      (uniqueFirst (d_df.map material_group))
    have hsplit := List.take_append_drop 15
      ((uniqueFirst (d_df.map material_group)).insertionSort (byCountDesc d_df))
    rcases List.mem_append.mp (by rw [hsplit]; exact hsortmem) with hleft | hright
    · exact absurd hleft hout
    · exact hsorted.rel_of_mem_take_of_mem_drop hm hright
  · refine lookup_filterMap_of_none _ id ?_ (top_materials d_df) m' ?_
    · intro s p h
      split at h
      · exact absurd h (by simp)
      · injection h with h
        rw [← h]
        rfl
    · intro a haa hak
      exact hout (hak ▸ haa)
  · exact List.length_take_le 15 _

/-- Claim C8 witness: a district table with 16 distinct materials; the
16th-ranked material is absent from the heatmap. -/
theorem C8_witness :
    countMat c8df "T15" ≤ countMat c8df "T00"
    ∧ (make_district_heatmap c8df).lookup "T15" = none
    ∧ (top_materials c8df).length ≤ 15 :=
  C8_district_heatmap_top15 c8df "T00" "T15" (by decide) (by decide) (by decide)

end BostonRaze

